import Mathlib

/-!
Verification development for `scripts/performance-monitor.py`: the alert
evaluation and lifecycle engine (threshold alerts, statistical anomaly
detection, trend inference, predictive alerts, alert-log persistence and
reporting).

Modelling conventions:
* Python floats are modelled as exact rationals (`ℚ`); every comparison in
  the evaluation engine is an order comparison, which the embedding mirrors
  exactly.
* `datetime` timestamps are modelled as natural numbers (seconds).  The
  comparison `a.timestamp > now - timedelta(hours=24)` is rendered additively
  as `now < a.timestamp + 86400`, which is the same inequality without
  truncated natural subtraction.
* A z-score `|v - mean| / stddev` involves a real square root, which has no
  exact rational representative, so the embedding carries the *square* of the
  z-score and compares it against the square of the (nonnegative) anomaly
  threshold; `z > t ↔ z² > t²` for `z, t ≥ 0`, and `z = 0 ↔ z² = 0`.
* Python's number-to-text formatting (`f"{v:.2f}"`, `str(v)`) is modelled by
  an exact rational printer `fmtQ`; the engine's logic depends only on the
  fact that numeric renderings consist of digits, `-` and `/`, never letters.
* Python's `in` on strings (substring test) is modelled by `containsStr`.
-/

/-! ### Decimal digit printing and parsing

Used to model `datetime.isoformat` / `datetime.fromisoformat` (an injective
text encoding of a timestamp together with its parser) and the numeric
interpolation inside alert messages. -/

def digitChar : ℕ → Char
  | 0 => '0'
  | 1 => '1'
  | 2 => '2'
  | 3 => '3'
  | 4 => '4'
  | 5 => '5'
  | 6 => '6'
  | 7 => '7'
  | 8 => '8'
  | _ => '9'

def digitVal (c : Char) : ℕ := c.toNat - 48

def isDigitCh (c : Char) : Bool := 48 ≤ c.toNat && c.toNat ≤ 57

/-- Little-endian decimal digits, structurally recursive on a fuel argument
so that it reduces definitionally (the fuel is always taken `≥ n`). -/
def digitsLEAux : ℕ → ℕ → List ℕ
  | 0, _ => []
  | _, 0 => []
  | fuel + 1, n + 1 => ((n + 1) % 10) :: digitsLEAux fuel ((n + 1) / 10)

/-- Little-endian decimal digits of a natural number (`[]` for `0`). -/
def digitsLE (n : ℕ) : List ℕ := digitsLEAux n n

theorem digitsLEAux_congr (n : ℕ) : ∀ fuel fuel' : ℕ, n ≤ fuel → n ≤ fuel' →
    digitsLEAux fuel n = digitsLEAux fuel' n := by
  induction n using Nat.strong_induction_on with
  | _ n ih =>
    intro fuel fuel' h h'
    cases n with
    | zero =>
      cases fuel <;> cases fuel' <;> rfl
    | succ k =>
      cases fuel with
      | zero => omega
      | succ f =>
        cases fuel' with
        | zero => omega
        | succ f' =>
          show ((k + 1) % 10) :: digitsLEAux f ((k + 1) / 10) =
            ((k + 1) % 10) :: digitsLEAux f' ((k + 1) / 10)
          have hlt : (k + 1) / 10 < k + 1 := Nat.div_lt_self (Nat.succ_pos k) (by decide)
          rw [ih ((k + 1) / 10) hlt f f' (by omega) (by omega)]

theorem digitsLE_pos (n : ℕ) (h : 0 < n) :
    digitsLE n = n % 10 :: digitsLE (n / 10) := by
  cases n with
  | zero => exact absurd h (by decide)
  | succ k =>
    show ((k + 1) % 10) :: digitsLEAux k ((k + 1) / 10) =
      (k + 1) % 10 :: digitsLEAux ((k + 1) / 10) ((k + 1) / 10)
    have hlt : (k + 1) / 10 < k + 1 := Nat.div_lt_self (Nat.succ_pos k) (by decide)
    rw [digitsLEAux_congr ((k + 1) / 10) k ((k + 1) / 10) (by omega) le_rfl]

theorem digitsLE_ne_nil (n : ℕ) (h : 0 < n) : digitsLE n ≠ [] := by
  rw [digitsLE_pos n h]; exact List.cons_ne_nil _ _

theorem mem_digitsLE_lt (n : ℕ) : ∀ d ∈ digitsLE n, d < 10 := by
  induction n using Nat.strong_induction_on with
  | _ n ih =>
    cases n with
    | zero => intro d hd; simp [digitsLE, digitsLEAux] at hd
    | succ k =>
      rw [digitsLE_pos (k + 1) (Nat.succ_pos k)]
      intro d hd
      rcases List.mem_cons.mp hd with h | h
      · subst h; exact Nat.mod_lt _ (by decide)
      · exact ih ((k + 1) / 10) (Nat.div_lt_self (Nat.succ_pos k) (by decide)) d h

/-- Big-endian digit-list evaluation, matching a left fold over the printed
characters. -/
def natFromDigitsBE (l : List ℕ) : ℕ := l.foldl (fun acc d => 10 * acc + d) 0

theorem foldl_digits_reverse (n : ℕ) : ∀ acc : ℕ,
    List.foldl (fun acc d => 10 * acc + d) acc (digitsLE n).reverse =
      acc * 10 ^ (digitsLE n).length + n := by
  induction n using Nat.strong_induction_on with
  | _ n ih =>
    intro acc
    cases n with
    | zero => simp [digitsLE, digitsLEAux]
    | succ k =>
      rw [digitsLE_pos (k + 1) (Nat.succ_pos k)]
      have hlt : (k + 1) / 10 < k + 1 := Nat.div_lt_self (Nat.succ_pos k) (by decide)
      simp only [List.reverse_cons, List.foldl_append, List.foldl_cons, List.foldl_nil,
        List.length_cons]
      rw [ih ((k + 1) / 10) hlt acc]
      have := Nat.div_add_mod (k + 1) 10
      ring_nf
      omega

/-- Renders a natural number in decimal, the model of `isoformat` on the
(ℕ-valued) timestamps. -/
def natToString (n : ℕ) : String :=
  if n = 0 then String.mk ['0'] else String.mk ((digitsLE n).reverse.map digitChar)

/-- Parses a decimal rendering back; the model of `fromisoformat`, which
fails (raises) on malformed text, hence `Option`. -/
def strToNat (s : String) : Option ℕ :=
  if s.data.isEmpty || !(s.data.all isDigitCh) then none
  else some (s.data.foldl (fun acc c => 10 * acc + digitVal c) 0)

theorem digitVal_digitChar : ∀ d, d < 10 → digitVal (digitChar d) = d := by decide

theorem isDigitCh_digitChar : ∀ d, d < 10 → isDigitCh (digitChar d) = true := by decide

theorem foldl_digitChar (l : List ℕ) (hl : ∀ d ∈ l, d < 10) : ∀ acc : ℕ,
    List.foldl (fun acc c => 10 * acc + digitVal c) acc (l.map digitChar) =
      List.foldl (fun acc d => 10 * acc + d) acc l := by
  induction l with
  | nil => intro acc; rfl
  | cons d rest ih =>
    intro acc
    simp only [List.map_cons, List.foldl_cons]
    rw [digitVal_digitChar d (hl d (List.mem_cons_self d rest))]
    exact ih (fun x hx => hl x (List.mem_cons_of_mem d hx)) _

theorem strToNat_natToString (n : ℕ) : strToNat (natToString n) = some n := by
  by_cases h : n = 0
  · subst h; decide
  · have hpos : 0 < n := Nat.pos_of_ne_zero h
    have hdig : ∀ d ∈ (digitsLE n).reverse, d < 10 := by
      intro d hd; exact mem_digitsLE_lt n d (List.mem_reverse.mp hd)
    unfold natToString strToNat
    rw [if_neg h]
    have hdata : (String.mk ((digitsLE n).reverse.map digitChar)).data =
        (digitsLE n).reverse.map digitChar := rfl
    rw [hdata]
    have hne : (digitsLE n).reverse.map digitChar ≠ [] := by
      simp only [ne_eq, List.map_eq_nil_iff, List.reverse_eq_nil_iff]
      exact digitsLE_ne_nil n hpos
    have hempty : ((digitsLE n).reverse.map digitChar).isEmpty = false := by
      cases hmap : (digitsLE n).reverse.map digitChar with
      | nil => exact absurd hmap hne
      | cons a l => rfl
    have hall : ((digitsLE n).reverse.map digitChar).all isDigitCh = true := by
      rw [List.all_eq_true]
      intro c hc
      rcases List.mem_map.mp hc with ⟨d, hd, hcd⟩
      subst hcd
      exact isDigitCh_digitChar d (hdig d hd)
    rw [hempty, hall]
    simp only [Bool.not_true, Bool.or_false]
    rw [if_neg (by decide)]
    rw [foldl_digitChar _ hdig 0]
    have := foldl_digits_reverse n 0
    rw [this]
    simp

/-! ### Substring containment (Python's `in` on strings) -/

/-- `containsStr hay needle` models Python's `needle in hay`. -/
def containsStr (hay needle : String) : Bool := decide (needle.data <:+: hay.data)

theorem containsStr_append_left (m rest : String) :
    containsStr (m ++ rest) m = true := by
  unfold containsStr
  rw [decide_eq_true_eq, String.data_append]
  exact (List.prefix_append m.data rest.data).isInfix

theorem containsStr_eq_false_of_char (hay needle : String) (c : Char)
    (hc : c ∈ needle.data) (hh : c ∉ hay.data) : containsStr hay needle = false := by
  unfold containsStr
  rw [decide_eq_false_iff_not]
  intro hinf
  exact hh (hinf.subset hc)

/-! ### Exact rational printer

Models the numeric interpolations in alert-message f-strings.  The only fact
the engine's correctness depends on is its character alphabet: digits, `-`
and `/` (in particular, no letters). -/

def fmtQ (q : ℚ) : String :=
  (if q < 0 then String.mk ['-'] else String.mk []) ++
    natToString q.num.natAbs ++ String.mk ['/'] ++ natToString q.den

theorem natToString_char_le (n : ℕ) (c : Char) (hc : c ∈ (natToString n).data) :
    c.toNat ≤ 57 := by
  unfold natToString at hc
  by_cases h : n = 0
  · rw [if_pos h] at hc
    have : c = '0' := by simpa using hc
    subst this; decide
  · rw [if_neg h] at hc
    have hc' : c ∈ (digitsLE n).reverse.map digitChar := hc
    rcases List.mem_map.mp hc' with ⟨d, hd, hcd⟩
    subst hcd
    have : d < 10 := mem_digitsLE_lt n d (List.mem_reverse.mp hd)
    interval_cases d <;> decide

theorem fmtQ_char_le (q : ℚ) (c : Char) (hc : c ∈ (fmtQ q).data) : c.toNat ≤ 57 := by
  unfold fmtQ at hc
  simp only [String.data_append] at hc
  rcases List.mem_append.mp hc with h | h
  · rcases List.mem_append.mp h with h | h
    · rcases List.mem_append.mp h with h | h
      · by_cases hq : q < 0
        · rw [if_pos hq] at h
          have : c = '-' := by simpa using h
          subst this; decide
        · rw [if_neg hq] at h
          simp at h
      · exact natToString_char_le _ c h
    · have : c = '/' := by simpa using h
      subst this; decide
  · exact natToString_char_le _ c h

/-! ### Data model (`@dataclass` definitions in the source)

`SystemMetrics` and `ApplicationMetrics` are modelled with the fields the
evaluation engine reads; the collector also fills I/O, network, load and
connection-count fields that no evaluation, report or recommendation path
ever consumes. -/

structure SystemMetrics where
  timestamp : ℕ
  cpu_percent : ℚ
  memory_percent : ℚ
  disk_usage_percent : ℚ
deriving DecidableEq

structure ApplicationMetrics where
  timestamp : ℕ
  response_time_ms : ℚ
  error_rate : ℚ
deriving DecidableEq

structure Alert where
  timestamp : ℕ
  severity : String
  category : String
  message : String
  value : ℚ
  threshold : ℚ
  duration_minutes : ℕ
  resolved : Bool
  resolution_time : Option ℕ
deriving DecidableEq

/-! ### AnomalyDetector -/

structure AnomalyDetector where
  window_size : ℕ
  threshold : ℚ
  data_history : List (String × List ℚ)
deriving DecidableEq

/-- `AnomalyDetector()` with its default arguments (window 50, threshold 2.5
standard deviations), as constructed by `PerformanceMonitor.__init__`. -/
def AnomalyDetector.init : AnomalyDetector := ⟨50, 5 / 2, []⟩

/-- Replaces (or creates) the binding of `metric_name` in the per-metric
history dictionary, leaving every other binding untouched. -/
def setHistory : List (String × List ℚ) → String → List ℚ → List (String × List ℚ)
  | [], name, h => [(name, h)]
  | (k, v) :: rest, name, h =>
      if k == name then (name, h) :: rest else (k, v) :: setHistory rest name h

def add_data_point (d : AnomalyDetector) (metric_name : String) (value : ℚ) :
    AnomalyDetector :=
  let hist := (List.lookup metric_name d.data_history).getD []
  let hist := hist ++ [value]
  let hist := if hist.length > d.window_size then hist.drop (hist.length - d.window_size)
              else hist
  { d with data_history := setHistory d.data_history metric_name hist }

def mean (l : List ℚ) : ℚ := l.sum / l.length

/-- `statistics.stdev` squared: the sample variance (denominator `n - 1`). -/
def sampleVariance (l : List ℚ) : ℚ :=
  ((l.map (fun x => (x - mean l) ^ 2)).sum) / ((l.length : ℚ) - 1)

/-- `AnomalyDetector.is_anomaly`.  The second component is the *square* of the
returned z-score (`z_score = |value - mean| / std_dev`); the boolean compares
it against the square of the nonnegative anomaly threshold, which is
equivalent to `z_score > threshold`.  Both early-return branches of the code
return a z-score of exactly `0.0`, i.e. a zero square. -/
def is_anomaly (d : AnomalyDetector) (metric_name : String) (value : ℚ) : Bool × ℚ :=
  match List.lookup metric_name d.data_history with
  | none => (false, 0)
  | some history =>
    if history.length < 10 then (false, 0)
    else
      let m := mean history
      let variance := if history.length > 1 then sampleVariance history else 0
      if variance = 0 then (false, 0)
      else
        let z_sq := (value - m) ^ 2 / variance
        (decide (z_sq > d.threshold ^ 2), z_sq)

/-- Python `l[-n:]`: the last `n` entries (the whole list when shorter). -/
def lastN (n : ℕ) (l : List α) : List α := l.drop (l.length - n)

/-- The regression denominator `n * sum_x2 - sum_x * sum_x` over indices
`0, …, n-1`. -/
def trendDenominator (n : ℕ) : ℚ :=
  let x := List.range n
  let sum_x : ℚ := (x.map (fun i : ℕ => (i : ℚ))).sum
  let sum_x2 : ℚ := (x.map (fun i : ℕ => (i : ℚ) * (i : ℚ))).sum
  (n : ℚ) * sum_x2 - sum_x * sum_x

/-- The linear-regression slope computed inside `detect_trend` over the
window `recent_data` (x-coordinates `0, …, n-1`). -/
def slopeOf (recent_data : List ℚ) : ℚ :=
  let n : ℚ := recent_data.length
  let x := List.range recent_data.length
  let sum_x : ℚ := (x.map (fun i : ℕ => (i : ℚ))).sum
  let sum_y := recent_data.sum
  let sum_xy : ℚ := ((x.zip recent_data).map (fun p : ℕ × ℚ => (p.1 : ℚ) * p.2)).sum
  (n * sum_xy - sum_x * sum_y) / trendDenominator recent_data.length

/-- `AnomalyDetector.detect_trend`; `points` defaults to 10 in the source and
is passed explicitly here (10 from the anomaly path, 5 from the predictive
path). -/
def detect_trend (d : AnomalyDetector) (metric_name : String) (points : ℕ) : String :=
  match List.lookup metric_name d.data_history with
  | none => "insufficient_data"
  | some history =>
    if history.length < points then "insufficient_data"
    else
      let recent_data := lastN points history
      let slope := slopeOf recent_data
      if slope > 0.1 then "increasing"
      else if slope < -0.1 then "decreasing"
      else "stable"

/-! ### PerformanceMonitor state and alert lifecycle -/

structure Config where
  cpu_threshold : ℚ
  memory_threshold : ℚ
  disk_threshold : ℚ
  response_time_threshold_ms : ℚ
  anomaly_detection : Bool
  enable_predictive_alerts : Bool
  historical_data_points : ℕ
deriving DecidableEq

structure MonitorState where
  anomaly_detector : AnomalyDetector
  alert_history : List Alert
  system_metrics_history : List SystemMetrics
  app_metrics_history : List ApplicationMetrics
deriving DecidableEq

def initState : MonitorState := ⟨AnomalyDetector.init, [], [], []⟩

/-- The active-alert predicate used both by the dedup scan and by the resolve
scan of `check_threshold_alert`: unresolved, same category, and the metric's
display name occurs in the message (Python's `metric_name in a.message`). -/
def matches_active (category metric_name : String) (a : Alert) : Bool :=
  !a.resolved && a.category == category && containsStr a.message metric_name

/-- The message of a threshold alert:
`f"{metric_name} is {value:.2f}% (threshold: {threshold}%)"`. -/
def thresholdMsg (metric_name : String) (value threshold : ℚ) : String :=
  metric_name ++ (" is ") ++ fmtQ value ++ ("% (threshold: ") ++ fmtQ threshold ++ ("%)")

/-- `severity = "CRITICAL" if value > threshold * 1.2 else "WARNING"`. -/
def severityOf (value threshold : ℚ) : String :=
  if value > threshold * 1.2 then "CRITICAL" else "WARNING"

/-- The resolve pass applied to one log entry when the sample is in range. -/
def resolveOne (category metric_name : String) (now : ℕ) (a : Alert) : Alert :=
  if matches_active category metric_name a then
    { a with resolved := true, resolution_time := some now }
  else a

/-- The `Alert(...)` record constructed on a deduplicated breach. -/
def openedAlert (metric_name : String) (value threshold : ℚ) (category : String)
    (now : ℕ) : Alert :=
  { timestamp := now, severity := severityOf value threshold, category := category,
    message := thresholdMsg metric_name value threshold, value := value,
    threshold := threshold, duration_minutes := 0, resolved := false,
    resolution_time := none }

/-- `PerformanceMonitor.check_threshold_alert`, acting on the alert log.
`send_alert` only dispatches notifications and never touches the log, so it
has no footprint on this state. -/
def check_threshold_alert (metric_name : String) (value threshold : ℚ)
    (category : String) (now : ℕ) (log : List Alert) : List Alert :=
  if value > threshold then
    let active_alerts := log.filter (matches_active category metric_name)
    if active_alerts.isEmpty then
      log ++ [openedAlert metric_name value threshold category now]
    else log
  else
    log.map (resolveOne category metric_name now)

/-- The message of an anomaly alert, with `z` the (squared) z-score:
`f"Anomaly detected in {metric_name}: {value:.2f} (z-score: {z:.2f}, trend: {trend})"`. -/
def anomalyMsg (metric_name : String) (value z : ℚ) (trend : String) : String :=
  ("Anomaly detected in ") ++ metric_name ++ (": ") ++ fmtQ value ++ (" (z-score: ") ++
    fmtQ z ++ (", trend: ") ++ trend ++ (")")

/-- The four `(metric_name, value, category)` tuples scanned by
`detect_anomalies`. -/
def metricsToCheck (sm : SystemMetrics) (am : ApplicationMetrics) :
    List (String × ℚ × String) :=
  [(("cpu_percent"), sm.cpu_percent, ("system")),
   (("memory_percent"), sm.memory_percent, ("system")),
   (("response_time_ms"), am.response_time_ms, ("application")),
   (("error_rate"), am.error_rate, ("application"))]

/-- One iteration of the `detect_anomalies` loop: record the sample, test it,
and on an anomaly append a WARNING alert under the metric's category (the
alert's `threshold` field carries the z-score). -/
def anomalyStep (now : ℕ) (dl : AnomalyDetector × List Alert)
    (t : String × ℚ × String) : AnomalyDetector × List Alert :=
  let d := add_data_point dl.1 t.1 t.2.1
  let r := is_anomaly d t.1 t.2.1
  if r.1 then
    let trend := detect_trend d t.1 10
    (d, dl.2 ++ [{ timestamp := now, severity := ("WARNING"), category := t.2.2,
                   message := anomalyMsg t.1 t.2.1 r.2 trend, value := t.2.1,
                   threshold := r.2, duration_minutes := 0, resolved := false,
                   resolution_time := none }])
  else (d, dl.2)

def detect_anomalies (sm : SystemMetrics) (am : ApplicationMetrics) (now : ℕ)
    (st : MonitorState) : MonitorState :=
  let r := (metricsToCheck sm am).foldl (anomalyStep now)
    (st.anomaly_detector, st.alert_history)
  { st with anomaly_detector := r.1, alert_history := r.2 }

/-- `f"CPU usage trending upward: {avg_cpu:.2f}% (trend: {cpu_trend})"`. -/
def predictiveMsg (avg_cpu : ℚ) (trend : String) : String :=
  ("CPU usage trending upward: ") ++ fmtQ avg_cpu ++ ("% (trend: ") ++ trend ++ (")")

def generate_predictive_alerts (now : ℕ) (st : MonitorState) : MonitorState :=
  if st.system_metrics_history.length < 10 then st
  else
    let recent_cpu := (lastN 10 st.system_metrics_history).map (fun m => m.cpu_percent)
    let cpu_trend := detect_trend st.anomaly_detector ("cpu_recent") 5
    if cpu_trend == ("increasing") then
      let avg_cpu := mean recent_cpu
      if avg_cpu > 60 then
        { st with alert_history := st.alert_history ++
          [{ timestamp := now, severity := ("INFO"), category := ("predictive"),
             message := predictiveMsg avg_cpu cpu_trend, value := avg_cpu,
             threshold := 60, duration_minutes := 0, resolved := false,
             resolution_time := none }] }
      else st
    else st

/-- `PerformanceMonitor.analyze_metrics`: the five threshold checks in source
order, then anomaly detection and predictive alerts behind their feature
flags.  (`Error Rate` is checked against the literal threshold `20.0`.) -/
def analyze_metrics (cfg : Config) (sm : SystemMetrics) (am : ApplicationMetrics)
    (now : ℕ) (st : MonitorState) : MonitorState :=
  let log := check_threshold_alert ("CPU Usage") sm.cpu_percent cfg.cpu_threshold
    ("system") now st.alert_history
  let log := check_threshold_alert ("Memory Usage") sm.memory_percent
    cfg.memory_threshold ("system") now log
  let log := check_threshold_alert ("Disk Usage") sm.disk_usage_percent
    cfg.disk_threshold ("system") now log
  let log := check_threshold_alert ("Response Time") am.response_time_ms
    cfg.response_time_threshold_ms ("application") now log
  let log := check_threshold_alert ("Error Rate") am.error_rate 20 ("application") now log
  let st := { st with alert_history := log }
  let st := if cfg.anomaly_detection then detect_anomalies sm am now st else st
  if cfg.enable_predictive_alerts then generate_predictive_alerts now st else st

/-- Python `if len(l) > limit: l = l[-limit:]` on the metric histories. -/
def trimTo (n : ℕ) (l : List α) : List α :=
  if l.length > n then l.drop (l.length - n) else l

/-- One iteration of `monitoring_loop`: store the collected samples (bounded
by `historical_data_points`), then analyze.  The periodic
`save_alert_history` call does not change the in-memory state. -/
def monitor_tick (cfg : Config) (sm : SystemMetrics) (am : ApplicationMetrics)
    (now : ℕ) (st : MonitorState) : MonitorState :=
  let st := { st with
    system_metrics_history := trimTo cfg.historical_data_points
      (st.system_metrics_history ++ [sm]),
    app_metrics_history := trimTo cfg.historical_data_points
      (st.app_metrics_history ++ [am]) }
  analyze_metrics cfg sm am now st

structure TickInput where
  now : ℕ
  sm : SystemMetrics
  am : ApplicationMetrics
deriving DecidableEq

/-- A run of the monitoring loop over a sequence of collected samples. -/
def monitor_run (cfg : Config) (inputs : List TickInput) (st : MonitorState) :
    MonitorState :=
  inputs.foldl (fun s i => monitor_tick cfg i.sm i.am i.now s) st

/-! ### Alert-log persistence (`save_alert_history` / `load_alert_history`)

The JSON file is modelled as an ordered list of `AlertRecord`s: the dictionary
written per alert, with both datetime fields already rendered to text the way
the code renders them (`isoformat`), and the numeric/boolean fields carried by
the JSON layer unchanged. -/

structure AlertRecord where
  timestamp : String
  severity : String
  category : String
  message : String
  value : ℚ
  threshold : ℚ
  duration_minutes : ℕ
  resolved : Bool
  resolution_time : Option String
deriving DecidableEq

/-- The per-alert serialization step of `save_alert_history`: `asdict(alert)`
with `timestamp` replaced by its `isoformat` and `resolution_time` replaced
by its `isoformat` when present (`None` is written through as `null`). -/
def alertToRecord (a : Alert) : AlertRecord :=
  { timestamp := natToString a.timestamp, severity := a.severity,
    category := a.category, message := a.message, value := a.value,
    threshold := a.threshold, duration_minutes := a.duration_minutes,
    resolved := a.resolved, resolution_time := a.resolution_time.map natToString }

/-- The per-alert parsing step of `load_alert_history`: `fromisoformat` on
`timestamp`, `alert.get('resolved', False)`, and `fromisoformat` on
`resolution_time` when it is non-null.  A malformed datetime raises in the
code, hence `Option` here. -/
def recordToAlert (r : AlertRecord) : Option Alert :=
  match strToNat r.timestamp with
  | none => none
  | some ts =>
    match r.resolution_time with
    | none => some { timestamp := ts, severity := r.severity, category := r.category,
                     message := r.message, value := r.value, threshold := r.threshold,
                     duration_minutes := r.duration_minutes, resolved := r.resolved,
                     resolution_time := none }
    | some s =>
      match strToNat s with
      | none => none
      | some rt => some { timestamp := ts, severity := r.severity, category := r.category,
                          message := r.message, value := r.value, threshold := r.threshold,
                          duration_minutes := r.duration_minutes, resolved := r.resolved,
                          resolution_time := some rt }

/-- `PerformanceMonitor.save_alert_history`.  The whole body sits in a
`try/except` whose handler only logs, so the method never raises to its
caller; it reads `self.alert_history` but never assigns to it.  The external
write outcome is modelled by `writeSucceeds`; the result is the (unchanged)
in-memory log paired with the file contents when the write succeeded. -/
def save_alert_history (log : List Alert) (writeSucceeds : Bool) :
    List Alert × Option (List AlertRecord) :=
  (log, if writeSucceeds then some (log.map alertToRecord) else none)

/-- `PerformanceMonitor.load_alert_history`: rebuilds the alert list from the
persisted records, in order; the surrounding `try/except` turns any parse
failure into "no load" (modelled by `none`). -/
def load_alert_history (records : List AlertRecord) : Option (List Alert) :=
  records.mapM recordToAlert

/-! ### Report aggregation and recommendations -/

/-- `max(...)` over a nonempty Python list (the `[]` case never arises: every
use is guarded by a nonemptiness test in the source). -/
def listMax (l : List ℚ) : ℚ :=
  match l with
  | [] => 0
  | x :: xs => xs.foldl max x

/-- Alerts from the trailing 24 hours:
`[a for a in alert_history if a.timestamp > now - timedelta(hours=24)]`
(written additively over ℕ, see the header). -/
def recent_alerts (now : ℕ) (log : List Alert) : List Alert :=
  log.filter (fun a => decide (now < a.timestamp + 86400))

def recCPUScale : String :=
  "Consider scaling up CPU resources or optimizing CPU-intensive processes"
def recMemory : String :=
  "Memory usage is high - consider increasing memory or optimizing memory usage"
def recSpikes : String :=
  "Frequent CPU spikes detected - investigate background processes"
def recRespTime : String :=
  "High response times detected - optimize database queries and API endpoints"
def recErrors : String :=
  "High error rate detected - review application logs and fix critical issues"
def recAlertFreq : String :=
  "High alert frequency - review monitoring thresholds and system stability"
def recDefault : String :=
  "System performance is within normal parameters"

/-- `PerformanceMonitor.generate_recommendations`.  The sequential
`recommendations.append(...)` calls are modelled by concatenation in source
order; the final `if not recommendations` supplies the default entry. -/
def generate_recommendations (now : ℕ) (st : MonitorState) : List String :=
  let recs : List String :=
    if st.system_metrics_history.isEmpty then [] else
      let recent_cpu := (lastN 30 st.system_metrics_history).map (fun m => m.cpu_percent)
      let recent_memory :=
        (lastN 30 st.system_metrics_history).map (fun m => m.memory_percent)
      (if mean recent_cpu > 80 then [recCPUScale] else []) ++
      (if mean recent_memory > 85 then [recMemory] else []) ++
      (if (recent_cpu.filter (fun c => decide (c > 90))).length > 5 then [recSpikes]
       else [])
  let recs := recs ++
    (if st.app_metrics_history.isEmpty then [] else
      let recent_response_times :=
        (lastN 30 st.app_metrics_history).map (fun m => m.response_time_ms)
      let recent_error_rates :=
        (lastN 30 st.app_metrics_history).map (fun m => m.error_rate)
      (if mean recent_response_times > 1000 then [recRespTime] else []) ++
      (if mean recent_error_rates > 10 then [recErrors] else []))
  let recs := recs ++
    (if (recent_alerts now st.alert_history).length > 20 then [recAlertFreq] else [])
  if recs.isEmpty then [recDefault] else recs

/-- `round(x, 2)`; the tie-breaking direction of Python's float rounding is
immaterial to every property proved here (only zeros are at stake). -/
def round2 (q : ℚ) : ℚ := ((round (q * 100) : ℤ) : ℚ) / 100

/-- The report dictionary of `generate_performance_report`, flattened. -/
structure Report where
  avg_cpu : ℚ
  peak_cpu : ℚ
  cpu_status : String
  avg_memory : ℚ
  peak_memory : ℚ
  memory_status : String
  avg_response_time : ℚ
  response_time_status : String
  avg_error_rate : ℚ
  error_rate_status : String
  total_24h : ℕ
  critical_count : ℕ
  warning_count : ℕ
  resolved_count : ℕ
  recommendations : List String
deriving DecidableEq

/-- `PerformanceMonitor.generate_performance_report`.  The source sets the
four system statistics in one `if self.system_metrics_history:` conditional
(and the two application ones in another); each is written here with its own
copy of the same guard.  Status strings are computed from the unrounded
averages, exactly as in the source. -/
def generate_performance_report (now : ℕ) (st : MonitorState) : Report :=
  let cpu60 := (lastN 60 st.system_metrics_history).map (fun m => m.cpu_percent)
  let mem60 := (lastN 60 st.system_metrics_history).map (fun m => m.memory_percent)
  let avg_cpu := if st.system_metrics_history.isEmpty then 0 else mean cpu60
  let avg_memory := if st.system_metrics_history.isEmpty then 0 else mean mem60
  let max_cpu := if st.system_metrics_history.isEmpty then 0 else listMax cpu60
  let max_memory := if st.system_metrics_history.isEmpty then 0 else listMax mem60
  let rt60 := (lastN 60 st.app_metrics_history).map (fun m => m.response_time_ms)
  let er60 := (lastN 60 st.app_metrics_history).map (fun m => m.error_rate)
  let avg_response_time := if st.app_metrics_history.isEmpty then 0 else mean rt60
  let avg_error_rate := if st.app_metrics_history.isEmpty then 0 else mean er60
  let recents := recent_alerts now st.alert_history
  { avg_cpu := round2 avg_cpu, peak_cpu := round2 max_cpu,
    cpu_status := if avg_cpu < 70 then ("good")
                  else if avg_cpu < 85 then ("warning") else ("critical"),
    avg_memory := round2 avg_memory, peak_memory := round2 max_memory,
    memory_status := if avg_memory < 80 then ("good")
                     else if avg_memory < 90 then ("warning") else ("critical"),
    avg_response_time := round2 avg_response_time,
    response_time_status := if avg_response_time < 500 then ("good")
                            else if avg_response_time < 1000 then ("warning")
                            else ("critical"),
    avg_error_rate := round2 avg_error_rate,
    error_rate_status := if avg_error_rate < 5 then ("good")
                         else if avg_error_rate < 15 then ("warning") else ("critical"),
    total_24h := recents.length,
    critical_count := (recents.filter (fun a => a.severity == ("CRITICAL"))).length,
    warning_count := (recents.filter (fun a => a.severity == ("WARNING"))).length,
    resolved_count := (recents.filter (fun a => a.resolved)).length,
    recommendations := generate_recommendations now st }

/-! ### Derived notions used by the claims -/

/-- Number of unresolved alerts matching a `(category, metric-identity)` pair
under the engine's own matching notion (category equality plus
metric-name-in-message). -/
def countActive (category metric_name : String) (log : List Alert) : ℕ :=
  (log.filter (matches_active category metric_name)).length

/-- The five `(category, display-name)` pairs the threshold path monitors. -/
def monitoredPairs : List (String × String) :=
  [(("system"), ("CPU Usage")), (("system"), ("Memory Usage")),
   (("system"), ("Disk Usage")), (("application"), ("Response Time")),
   (("application"), ("Error Rate"))]

/-! ## Claims -/

/-- Claim C3: threshold evaluation opens no alert when `value ≤ threshold`;
on a breach it classifies CRITICAL exactly when `value > threshold * 1.2`
and WARNING otherwise (so `value = threshold * 1.2` yields WARNING); and a
deduplicated breach appends the alert carrying exactly that severity. -/
theorem C3_threshold_severity (metric_name category : String) (value threshold : ℚ)
    (now : ℕ) (log : List Alert) :
    (value ≤ threshold →
      (check_threshold_alert metric_name value threshold category now log).length =
        log.length) ∧
    (threshold * 1.2 < value → severityOf value threshold = ("CRITICAL")) ∧
    (value ≤ threshold * 1.2 → severityOf value threshold = ("WARNING")) ∧
    (threshold < value →
      (log.filter (matches_active category metric_name)).isEmpty = true →
      check_threshold_alert metric_name value threshold category now log =
        log ++ [openedAlert metric_name value threshold category now]) := by
  refine ⟨?_, ?_, ?_, ?_⟩
  · intro h
    unfold check_threshold_alert
    rw [if_neg (not_lt.mpr h)]
    exact List.length_map log _
  · intro h
    unfold severityOf
    rw [if_pos h]
  · intro h
    unfold severityOf
    rw [if_neg (not_lt.mpr h)]
  · intro h hempty
    unfold check_threshold_alert
    rw [if_pos h, if_pos hempty]

/-- Claim C3 witness: with threshold 5, value 4 is in range and appends
nothing, value 7 (> 6 = 5 × 1.2) is CRITICAL, value 6 (= 5 × 1.2 exactly) is
WARNING, and a deduplicated breach appends the opened alert. -/
theorem C3_witness :
    (check_threshold_alert ("CPU Usage") 4 5 ("system") 0 []).length =
      ([] : List Alert).length ∧
    severityOf 7 5 = ("CRITICAL") ∧ severityOf 6 5 = ("WARNING") ∧
    check_threshold_alert ("CPU Usage") 7 5 ("system") 0 [] =
      [] ++ [openedAlert ("CPU Usage") 7 5 ("system") 0] :=
  ⟨(C3_threshold_severity ("CPU Usage") ("system") 4 5 0 []).1 (by norm_num),
   (C3_threshold_severity ("CPU Usage") ("system") 7 5 0 []).2.1 (by norm_num),
   (C3_threshold_severity ("CPU Usage") ("system") 6 5 0 []).2.2.1 (by norm_num),
   (C3_threshold_severity ("CPU Usage") ("system") 7 5 0 []).2.2.2 (by norm_num) rfl⟩

/-- Claim C4: `is_anomaly` returns `(false, 0.0)` when the metric has no
recorded history, when the history has fewer than 10 points, and when the
window's standard deviation is zero (zero sample variance); in each of these
cases the z-score division is never reached. -/
theorem C4_anomaly_guards (d : AnomalyDetector) (metric_name : String) (value : ℚ)
    (history : List ℚ) :
    (List.lookup metric_name d.data_history = none →
      is_anomaly d metric_name value = (false, 0)) ∧
    (List.lookup metric_name d.data_history = some history → history.length < 10 →
      is_anomaly d metric_name value = (false, 0)) ∧
    (List.lookup metric_name d.data_history = some history → ¬ history.length < 10 →
      sampleVariance history = 0 → is_anomaly d metric_name value = (false, 0)) := by
  refine ⟨?_, ?_, ?_⟩
  · intro h
    unfold is_anomaly
    rw [h]
  · intro h h10
    unfold is_anomaly
    rw [h]
    simp only [if_pos h10]
  · intro h h10 hvar
    unfold is_anomaly
    rw [h]
    simp only [if_neg h10]
    have h1 : history.length > 1 := by omega
    simp only [if_pos h1, hvar]
    simp

/-- Claim C4 witness: the constant history `[10, …, 10]` (ten points, sample
variance 0) with new value 10 is not anomalous with zero z-score, and a
3-point history is never anomalous even for an extreme value. -/
theorem C4_witness :
    is_anomaly ⟨50, 5 / 2, [(("m"), [10, 10, 10, 10, 10, 10, 10, 10, 10, 10])]⟩
      ("m") 10 = (false, 0) ∧
    is_anomaly ⟨50, 5 / 2, [(("m"), [1, 2, 3])]⟩ ("m") 999 = (false, 0) :=
  ⟨(C4_anomaly_guards _ ("m") 10 [10, 10, 10, 10, 10, 10, 10, 10, 10, 10]).2.2
      (by with_unfolding_all rfl) (by norm_num) (by with_unfolding_all rfl),
   (C4_anomaly_guards _ ("m") 999 [1, 2, 3]).2.1
      (by with_unfolding_all rfl) (by norm_num)⟩

/-- Claim C5: `detect_trend` returns `insufficient_data` when the metric's
history is shorter than the lookback; otherwise (for a meaningful lookback
`≥ 2`, cf. the denominator analysis) it classifies by the regression slope
over the last `points` samples against the ±0.1 deadband; in particular
`[1, …, 10]` is increasing, a constant window is stable. -/
theorem C5_trend_classification (d : AnomalyDetector) (metric_name : String)
    (points : ℕ) (history : List ℚ)
    (hl : List.lookup metric_name d.data_history = some history)
    (hp : 2 ≤ points) :
    (history.length < points →
      detect_trend d metric_name points = ("insufficient_data")) ∧
    (points ≤ history.length →
      ((detect_trend d metric_name points = ("increasing") ↔
         0.1 < slopeOf (lastN points history)) ∧
       (detect_trend d metric_name points = ("decreasing") ↔
         slopeOf (lastN points history) < -0.1) ∧
       (detect_trend d metric_name points = ("stable") ↔
         (slopeOf (lastN points history) ≤ 0.1 ∧
          -0.1 ≤ slopeOf (lastN points history))))) ∧
    detect_trend ⟨50, 5 / 2, [(("m"), [1, 2, 3, 4, 5, 6, 7, 8, 9, 10])]⟩ ("m") 10 =
      ("increasing") ∧
    detect_trend ⟨50, 5 / 2, [(("m"), [4, 4, 4, 4, 4, 4, 4, 4, 4, 4])]⟩ ("m") 10 =
      ("stable") ∧
    detect_trend ⟨50, 5 / 2, [(("m"), [1, 2, 3])]⟩ ("m") 10 =
      ("insufficient_data") := by
  refine ⟨?_, ?_, ?_, ?_, ?_⟩
  · intro hlen
    unfold detect_trend
    rw [hl]
    simp only [if_pos hlen]
  · intro hlen
    unfold detect_trend
    rw [hl]
    simp only [if_neg (not_lt.mpr hlen)]
    have hid : (("increasing") : String) ≠ ("decreasing") := by decide
    have his : (("increasing") : String) ≠ ("stable") := by decide
    have hds : (("decreasing") : String) ≠ ("stable") := by decide
    split_ifs with h1 h2
    · exact ⟨⟨fun _ => h1, fun _ => rfl⟩,
        ⟨fun h => absurd h hid, fun h => absurd h1 (by linarith)⟩,
        ⟨fun h => absurd h his, fun h => absurd h1 (not_lt.mpr h.1)⟩⟩
    · exact ⟨⟨fun h => absurd h.symm hid, fun h => absurd h (not_lt.mpr (by linarith))⟩,
        ⟨fun _ => h2, fun _ => rfl⟩,
        ⟨fun h => absurd h hds, fun h => absurd h2 (not_lt.mpr h.2)⟩⟩
    · exact ⟨⟨fun h => absurd h.symm his, fun h => absurd h1 (by exact fun h1 => h1 h)⟩,
        ⟨fun h => absurd h.symm hds, fun h => absurd h2 (by exact fun h2 => h2 h)⟩,
        ⟨fun _ => ⟨not_lt.mp h1, not_lt.mp h2⟩, fun _ => rfl⟩⟩
  · with_unfolding_all rfl
  · with_unfolding_all rfl
  · with_unfolding_all rfl

/-- Claim C5 witness: the classification instantiated on a concrete detector
whose history `[1, …, 10]` has slope exactly 1. -/
theorem C5_witness :
    detect_trend ⟨50, 5 / 2, [(("m"), [1, 2, 3, 4, 5, 6, 7, 8, 9, 10])]⟩ ("m") 10 =
      ("increasing") ∧
    detect_trend ⟨50, 5 / 2, [(("m"), [1, 2, 3])]⟩ ("m") 4 = ("insufficient_data") := by
  constructor
  · exact (C5_trend_classification ⟨50, 5 / 2,
      [(("m"), [1, 2, 3, 4, 5, 6, 7, 8, 9, 10])]⟩ ("m") 10
      [1, 2, 3, 4, 5, 6, 7, 8, 9, 10] (by with_unfolding_all rfl)
      (by norm_num)).2.2.1
  · exact (C5_trend_classification ⟨50, 5 / 2, [(("m"), [1, 2, 3])]⟩ ("m") 4
      [1, 2, 3] (by with_unfolding_all rfl) (by norm_num)).1 (by norm_num)

theorem map_sum_range_succ (f : ℕ → ℚ) (n : ℕ) :
    ((List.range (n + 1)).map f).sum = ((List.range n).map f).sum + f n := by
  rw [List.range_succ, List.map_append, List.sum_append]
  simp

theorem sum_range_cast (n : ℕ) :
    2 * ((List.range n).map (fun i : ℕ => (i : ℚ))).sum = (n : ℚ) ^ 2 - n := by
  induction n with
  | zero => simp
  | succ k ih =>
    rw [map_sum_range_succ]
    set S := ((List.range k).map (fun i : ℕ => (i : ℚ))).sum with hS
    push_cast
    linear_combination ih

theorem sum_range_sq_cast (n : ℕ) :
    6 * ((List.range n).map (fun i : ℕ => (i : ℚ) * i)).sum =
      2 * (n : ℚ) ^ 3 - 3 * (n : ℚ) ^ 2 + n := by
  induction n with
  | zero => simp
  | succ k ih =>
    rw [map_sum_range_succ]
    set S := ((List.range k).map (fun i : ℕ => (i : ℚ) * i)).sum with hS
    push_cast
    linear_combination ih

theorem trendDenominator_closed (n : ℕ) :
    12 * trendDenominator n = (n : ℚ) ^ 2 * ((n : ℚ) ^ 2 - 1) := by
  have h1 := sum_range_cast n
  have h2 := sum_range_sq_cast n
  unfold trendDenominator
  linear_combination (2 * (n : ℚ)) * h2 -
    (3 * (2 * ((List.range n).map (fun i : ℕ => (i : ℚ))).sum + ((n : ℚ) ^ 2 - n))) * h1

/-- Claim C10: the regression denominator over indices `0, …, n-1` is
strictly positive for every lookback `n ≥ 2` (so the slope division is
well defined there), and is exactly zero for lookback 1, where the code's
slope computation divides by zero. -/
theorem C10_trend_denominator :
    (∀ n : ℕ, 2 ≤ n → 0 < trendDenominator n) ∧ trendDenominator 1 = 0 := by
  constructor
  · intro n hn
    have h := trendDenominator_closed n
    have hn' : (2 : ℚ) ≤ (n : ℚ) := by exact_mod_cast hn
    have h4 : 4 ≤ (n : ℚ) ^ 2 := by nlinarith
    have h12 : 12 ≤ (n : ℚ) ^ 2 * ((n : ℚ) ^ 2 - 1) := by nlinarith
    linarith
  · with_unfolding_all rfl

/-- Claim C10 witness: the denominator at lookback 2 is positive, at
lookback 1 it vanishes. -/
theorem C10_witness : 0 < trendDenominator 2 ∧ trendDenominator 1 = 0 :=
  ⟨C10_trend_denominator.1 2 (by norm_num), C10_trend_denominator.2⟩

theorem recordToAlert_alertToRecord (a : Alert) :
    recordToAlert (alertToRecord a) = some a := by
  cases a with
  | mk ts sev cat msg v th dm res rt =>
    cases rt with
    | none => simp [alertToRecord, recordToAlert, strToNat_natToString]
    | some t => simp [alertToRecord, recordToAlert, strToNat_natToString]

/-- Claim C7: persisting the alert log and reloading it reproduces the
identical ordered sequence of alerts, including resolved flags and
resolution times: `load ∘ save = identity` on the log. -/
theorem C7_save_load_roundtrip (log : List Alert) :
    (save_alert_history log true).2 = some (log.map alertToRecord) ∧
    load_alert_history (log.map alertToRecord) = some log := by
  refine ⟨rfl, ?_⟩
  unfold load_alert_history
  induction log with
  | nil => rfl
  | cons a l ih =>
    simp only [List.map_cons, List.mapM_cons, recordToAlert_alertToRecord, ih]
    rfl

/-- Claim C9: saving the alert log is best-effort: it never raises to its
caller (the body is total, the `except` handler only logs) and never mutates
the in-memory log, whether the write succeeds or fails; on failure nothing
is persisted but the in-memory log is intact. -/
theorem C9_save_best_effort (log : List Alert) (writeSucceeds : Bool) :
    (save_alert_history log writeSucceeds).1 = log ∧
    (writeSucceeds = false → (save_alert_history log writeSucceeds).2 = none) := by
  refine ⟨rfl, ?_⟩
  intro h
  subst h
  rfl

/-- Claim C9 witness: a failing write leaves a one-alert log unchanged and
persists nothing. -/
theorem C9_witness :
    (save_alert_history [openedAlert ("CPU Usage") 7 5 ("system") 0] false).1 =
      [openedAlert ("CPU Usage") 7 5 ("system") 0] ∧
    (save_alert_history [openedAlert ("CPU Usage") 7 5 ("system") 0] false).2 = none :=
  ⟨(C9_save_best_effort [openedAlert ("CPU Usage") 7 5 ("system") 0] false).1,
   (C9_save_best_effort [openedAlert ("CPU Usage") 7 5 ("system") 0] false).2 rfl⟩

theorem thresholdMsg_data (m : String) (v t : ℚ) :
    (thresholdMsg m v t).data = m.data ++
      ((" is ") ++ fmtQ v ++ ("% (threshold: ") ++ fmtQ t ++ ("%)")).data := by
  simp [thresholdMsg, String.data_append, List.append_assoc]

theorem containsStr_thresholdMsg (m : String) (v t : ℚ) :
    containsStr (thresholdMsg m v t) m = true := by
  unfold containsStr
  rw [thresholdMsg_data]
  exact decide_eq_true ((List.prefix_append _ _).isInfix)

theorem matches_active_openedAlert (category metric_name : String) (v t : ℚ) (now : ℕ) :
    matches_active category metric_name (openedAlert metric_name v t category now) =
      true := by
  simp [matches_active, openedAlert, containsStr_thresholdMsg]

theorem resolveOne_id_of_not_matches (category metric_name : String) (now : ℕ)
    (a : Alert) (h : matches_active category metric_name a = false) :
    resolveOne category metric_name now a = a := by
  unfold resolveOne
  rw [h]
  rfl

theorem map_resolveOne_id (category metric_name : String) (now : ℕ) (log : List Alert)
    (h : ∀ a ∈ log, matches_active category metric_name a = false) :
    log.map (resolveOne category metric_name now) = log := by
  induction log with
  | nil => rfl
  | cons a l ih =>
    simp only [List.map_cons]
    rw [resolveOne_id_of_not_matches category metric_name now a
        (h a (List.mem_cons_self a l)),
      ih (fun x hx => h x (List.mem_cons_of_mem a hx))]

/-- Claim C2: from a state with no unresolved alert for `(category, metric)`,
the breach sequence `[t+1, t+1, t+1]` appends exactly one alert (the second
and third breaches are deduplicated no-ops), and a subsequent in-range sample
`r ≤ t` marks exactly that alert resolved with its resolution time set,
leaving the rest of the log untouched. -/
theorem C2_single_breach_single_resolution (metric_name category : String)
    (t r : ℚ) (log : List Alert) (n1 n2 n3 n4 : ℕ)
    (h0 : countActive category metric_name log = 0) (hr : r ≤ t) :
    (check_threshold_alert metric_name (t + 1) t category n3
      (check_threshold_alert metric_name (t + 1) t category n2
        (check_threshold_alert metric_name (t + 1) t category n1 log)) =
      log ++ [openedAlert metric_name (t + 1) t category n1]) ∧
    (check_threshold_alert metric_name r t category n4
      (log ++ [openedAlert metric_name (t + 1) t category n1]) =
      log ++ [{ openedAlert metric_name (t + 1) t category n1 with
                resolved := true, resolution_time := some n4 }]) := by
  have hgt : t < t + 1 := by linarith
  have hfilter0 : log.filter (matches_active category metric_name) = [] :=
    List.length_eq_zero.mp h0
  have hnomatch : ∀ a ∈ log, matches_active category metric_name a = false := by
    intro a ha
    by_contra hb
    have : a ∈ log.filter (matches_active category metric_name) :=
      List.mem_filter.mpr ⟨ha, Bool.not_eq_false _ ▸ hb⟩
    rw [hfilter0] at this
    exact absurd this (List.not_mem_nil a)
  have step1 : check_threshold_alert metric_name (t + 1) t category n1 log =
      log ++ [openedAlert metric_name (t + 1) t category n1] := by
    unfold check_threshold_alert
    rw [if_pos hgt]
    simp only [hfilter0]
    rfl
  have stepDup : ∀ n : ℕ, check_threshold_alert metric_name (t + 1) t category n
      (log ++ [openedAlert metric_name (t + 1) t category n1]) =
      log ++ [openedAlert metric_name (t + 1) t category n1] := by
    intro n
    unfold check_threshold_alert
    rw [if_pos hgt]
    rw [List.filter_append, hfilter0]
    simp only [List.filter_cons, matches_active_openedAlert, if_true,
      List.filter_nil, List.nil_append]
    rfl
  constructor
  · rw [step1, stepDup n2, stepDup n3]
  · unfold check_threshold_alert
    rw [if_neg (not_lt.mpr hr)]
    rw [List.map_append, map_resolveOne_id category metric_name n4 log hnomatch]
    simp only [List.map_cons, List.map_nil]
    unfold resolveOne
    rw [matches_active_openedAlert]
    rfl

/-- Claim C2 witness: the lifecycle instantiated at metric `CPU Usage`,
threshold 80, breach value 81 and recovery value 50 on an empty log. -/
theorem C2_witness :
    (check_threshold_alert ("CPU Usage") (80 + 1) 80 ("system") 2
      (check_threshold_alert ("CPU Usage") (80 + 1) 80 ("system") 1
        (check_threshold_alert ("CPU Usage") (80 + 1) 80 ("system") 0 [])) =
      [] ++ [openedAlert ("CPU Usage") (80 + 1) 80 ("system") 0]) ∧
    (check_threshold_alert ("CPU Usage") 50 80 ("system") 3
      ([] ++ [openedAlert ("CPU Usage") (80 + 1) 80 ("system") 0]) =
      [] ++ [{ openedAlert ("CPU Usage") (80 + 1) 80 ("system") 0 with
               resolved := true, resolution_time := some 3 }]) :=
  C2_single_breach_single_resolution ("CPU Usage") ("system") 80 50 [] 0 1 2 3
    rfl (by norm_num)

/-- A log of 21 synthetic alerts, all within the trailing 24 hours of
`now = 0`. -/
def alerts21 : List Alert :=
  (List.range 21).map (fun i =>
    { timestamp := i, severity := ("INFO"), category := ("test"),
      message := ("synthetic"), value := 0, threshold := 0, duration_minutes := 0,
      resolved := false, resolution_time := none })

/-- Empty metric histories but 21 recent alerts in the log. -/
def emptyHistoriesState : MonitorState := ⟨AnomalyDetector.init, alerts21, [], []⟩

/-- Claim C8 counterexample: with both metric histories empty but 21 alerts
in the trailing 24 hours, the report's recommendation list is the
high-alert-frequency entry alone and does *not* contain the default
"within normal parameters" entry, contradicting the claim as stated. -/
theorem C8_counterexample :
    (generate_performance_report 0 emptyHistoriesState).recommendations =
      [recAlertFreq] ∧
    ¬ recDefault ∈ (generate_performance_report 0 emptyHistoriesState).recommendations := by
  have h : (generate_performance_report 0 emptyHistoriesState).recommendations =
      [recAlertFreq] := by with_unfolding_all rfl
  refine ⟨h, ?_⟩
  rw [h]
  decide

/-- Claim C8 (amended): when both metric histories are empty *and at most 20
alerts lie in the trailing 24 hours* (e.g. an empty alert log), the report
has zero averages and peaks for CPU, memory, response time and error rate,
and its recommendation list is exactly the non-empty default
"within normal parameters" entry. -/
theorem C8_empty_histories_report (now : ℕ) (st : MonitorState)
    (hs : st.system_metrics_history = []) (ha : st.app_metrics_history = [])
    (halerts : ¬ 20 < (recent_alerts now st.alert_history).length) :
    (generate_performance_report now st).avg_cpu = 0 ∧
    (generate_performance_report now st).peak_cpu = 0 ∧
    (generate_performance_report now st).avg_memory = 0 ∧
    (generate_performance_report now st).peak_memory = 0 ∧
    (generate_performance_report now st).avg_response_time = 0 ∧
    (generate_performance_report now st).avg_error_rate = 0 ∧
    (generate_performance_report now st).recommendations = [recDefault] := by
  have hrecs : generate_recommendations now st = [recDefault] := by
    unfold generate_recommendations
    rw [hs, ha]
    simp only [List.isEmpty_nil, if_true, List.nil_append]
    rw [if_neg halerts]
    rfl
  unfold generate_performance_report
  rw [hs, ha, hrecs]
  simp [round2]

/-- Claim C8 witness: the amended statement at the freshly constructed
engine state (empty histories, empty log). -/
theorem C8_witness :
    (generate_performance_report 0 initState).avg_cpu = 0 ∧
    (generate_performance_report 0 initState).peak_cpu = 0 ∧
    (generate_performance_report 0 initState).avg_memory = 0 ∧
    (generate_performance_report 0 initState).peak_memory = 0 ∧
    (generate_performance_report 0 initState).avg_response_time = 0 ∧
    (generate_performance_report 0 initState).avg_error_rate = 0 ∧
    (generate_performance_report 0 initState).recommendations = [recDefault] :=
  C8_empty_histories_report 0 initState rfl rfl (by decide)

/-! ### Character-set analysis of alert messages

The dedup/resolve scans match a metric's display name as a substring of
stored messages.  Numeric renderings contain no letters, so a message can
contain an uppercase letter only if one of its fixed textual parts does;
this separates the five display names from each other and from the
anomaly-path messages. -/

theorem thresholdMsg_char_cases (m : String) (v t : ℚ) (c : Char)
    (hc : c ∈ (thresholdMsg m v t).data) :
    c.toNat ≤ 57 ∨ c ∈ m.data ∨
      c ∈ ((" is ") ++ ("% (threshold: ") ++ ("%)")).data := by
  unfold thresholdMsg at hc
  simp only [String.data_append, List.mem_append] at hc ⊢
  have hf1 := fun h => fmtQ_char_le v c h
  have hf2 := fun h => fmtQ_char_le t c h
  tauto

theorem anomalyMsg_char_cases (name : String) (v z : ℚ) (tr : String) (c : Char)
    (hc : c ∈ (anomalyMsg name v z tr).data) :
    c.toNat ≤ 57 ∨ c ∈ name.data ∨ c ∈ tr.data ∨
      c ∈ (("Anomaly detected in ") ++ (": ") ++ (" (z-score: ") ++ (", trend: ") ++
        (")")).data := by
  unfold anomalyMsg at hc
  simp only [String.data_append, List.mem_append] at hc ⊢
  have hf1 := fun h => fmtQ_char_le v c h
  have hf2 := fun h => fmtQ_char_le z c h
  tauto

theorem char_not_in_thresholdMsg (m : String) (v t : ℚ) (χ : Char)
    (hgt : 57 < χ.toNat) (hm : χ ∉ m.data)
    (hfix : χ ∉ ((" is ") ++ ("% (threshold: ") ++ ("%)")).data) :
    χ ∉ (thresholdMsg m v t).data := by
  intro hin
  rcases thresholdMsg_char_cases m v t χ hin with h | h | h
  · omega
  · exact hm h
  · exact hfix h

theorem char_not_in_anomalyMsg (name : String) (v z : ℚ) (tr : String) (χ : Char)
    (hgt : 57 < χ.toNat) (hname : χ ∉ name.data) (htr : χ ∉ tr.data)
    (hfix : χ ∉ (("Anomaly detected in ") ++ (": ") ++ (" (z-score: ") ++
      (", trend: ") ++ (")")).data) :
    χ ∉ (anomalyMsg name v z tr).data := by
  intro hin
  rcases anomalyMsg_char_cases name v z tr χ hin with h | h | h | h
  · omega
  · exact hname h
  · exact htr h
  · exact hfix h

/-- The metric names the anomaly path records and reports on. -/
def anomalyMetricNames : List String :=
  [("cpu_percent"), ("memory_percent"), ("response_time_ms"), ("error_rate")]

/-- The four labels `detect_trend` can return. -/
def trendLabels : List String :=
  [("increasing"), ("decreasing"), ("stable"), ("insufficient_data")]

theorem detect_trend_mem (d : AnomalyDetector) (metric_name : String) (points : ℕ) :
    detect_trend d metric_name points ∈ trendLabels := by
  unfold detect_trend
  cases List.lookup metric_name d.data_history with
  | none => simp [trendLabels]
  | some history =>
    dsimp only
    split_ifs <;> simp [trendLabels]

/-- A display name of a monitored pair never occurs in an anomaly message:
each display name contains an uppercase letter that no anomaly message can
contain. -/
theorem monitored_not_in_anomalyMsg (p : String × String) (hp : p ∈ monitoredPairs)
    (name : String) (hn : name ∈ anomalyMetricNames) (v z : ℚ) (tr : String)
    (htr : tr ∈ trendLabels) :
    containsStr (anomalyMsg name v z tr) p.2 = false := by
  fin_cases hp
  · exact containsStr_eq_false_of_char _ _ 'U' (by decide)
      (char_not_in_anomalyMsg name v z tr 'U' (by decide)
        (by fin_cases hn <;> decide) (by fin_cases htr <;> decide) (by decide))
  · exact containsStr_eq_false_of_char _ _ 'U' (by decide)
      (char_not_in_anomalyMsg name v z tr 'U' (by decide)
        (by fin_cases hn <;> decide) (by fin_cases htr <;> decide) (by decide))
  · exact containsStr_eq_false_of_char _ _ 'U' (by decide)
      (char_not_in_anomalyMsg name v z tr 'U' (by decide)
        (by fin_cases hn <;> decide) (by fin_cases htr <;> decide) (by decide))
  · exact containsStr_eq_false_of_char _ _ 'T' (by decide)
      (char_not_in_anomalyMsg name v z tr 'T' (by decide)
        (by fin_cases hn <;> decide) (by fin_cases htr <;> decide) (by decide))
  · exact containsStr_eq_false_of_char _ _ 'R' (by decide)
      (char_not_in_anomalyMsg name v z tr 'R' (by decide)
        (by fin_cases hn <;> decide) (by fin_cases htr <;> decide) (by decide))

/-- Distinct display names never occur in each other's threshold messages. -/
theorem monitored_not_in_thresholdMsg (p q : String × String)
    (hp : p ∈ monitoredPairs) (hq : q ∈ monitoredPairs) (hne : p.2 ≠ q.2)
    (v t : ℚ) :
    containsStr (thresholdMsg q.2 v t) p.2 = false := by
  fin_cases hp <;> fin_cases hq <;>
    first
      | exact absurd rfl hne
      | exact containsStr_eq_false_of_char _ _ 'C' (by decide)
          (char_not_in_thresholdMsg _ v t 'C' (by decide) (by decide) (by decide))
      | exact containsStr_eq_false_of_char _ _ 'M' (by decide)
          (char_not_in_thresholdMsg _ v t 'M' (by decide) (by decide) (by decide))
      | exact containsStr_eq_false_of_char _ _ 'D' (by decide)
          (char_not_in_thresholdMsg _ v t 'D' (by decide) (by decide) (by decide))
      | exact containsStr_eq_false_of_char _ _ 'T' (by decide)
          (char_not_in_thresholdMsg _ v t 'T' (by decide) (by decide) (by decide))
      | exact containsStr_eq_false_of_char _ _ 'E' (by decide)
          (char_not_in_thresholdMsg _ v t 'E' (by decide) (by decide) (by decide))

/-! ### Alerts created by the anomaly and predictive paths -/

/-- An alert whose message has the shape produced by the anomaly path. -/
def AnomalyShaped (a : Alert) : Prop :=
  ∃ name v z tr, name ∈ anomalyMetricNames ∧ tr ∈ trendLabels ∧
    a.message = anomalyMsg name v z tr

/-- An alert created by the anomaly path or the predictive path. -/
def AutoAlert (a : Alert) : Prop := AnomalyShaped a ∨ a.category = ("predictive")

/-- No resolve (or dedup) scan of the five threshold call sites ever matches
an anomaly-path or predictive-path alert. -/
theorem auto_not_matches (p : String × String) (hp : p ∈ monitoredPairs) (a : Alert)
    (ha : AutoAlert a) : matches_active p.1 p.2 a = false := by
  rcases ha with ⟨name, v, z, tr, hn, htr, hmsg⟩ | hcat
  · unfold matches_active
    rw [hmsg, monitored_not_in_anomalyMsg p hp name hn v z tr htr]
    simp
  · unfold matches_active
    rw [hcat]
    have hne : ((("predictive") : String) == p.1) = false := by
      fin_cases hp <;> decide
    rw [hne]
    simp

/-! ### A positional preservation order on alert logs -/

/-- `LogPreserves P l l'`: `l'` extends `l` and agrees with `l` on every
entry satisfying `P` (such entries are carried through unmodified). -/
def LogPreserves (P : Alert → Prop) (l l' : List Alert) : Prop :=
  l.length ≤ l'.length ∧
    ∀ i (h : i < l.length) (h' : i < l'.length),
      P (l.get ⟨i, h⟩) → l'.get ⟨i, h'⟩ = l.get ⟨i, h⟩

theorem logPreserves_refl (P : Alert → Prop) (l : List Alert) : LogPreserves P l l :=
  ⟨le_rfl, fun _ _ _ _ => rfl⟩

theorem logPreserves_trans {P : Alert → Prop} {l1 l2 l3 : List Alert}
    (h12 : LogPreserves P l1 l2) (h23 : LogPreserves P l2 l3) :
    LogPreserves P l1 l3 := by
  obtain ⟨hl1, hg1⟩ := h12
  obtain ⟨hl2, hg2⟩ := h23
  refine ⟨le_trans hl1 hl2, ?_⟩
  intro i h h' hP
  have hm : i < l2.length := lt_of_lt_of_le h hl1
  have e1 := hg1 i h hm hP
  have hP2 : P (l2.get ⟨i, hm⟩) := by rw [e1]; exact hP
  have e2 := hg2 i hm h' hP2
  rw [e2, e1]

theorem logPreserves_append (P : Alert → Prop) (l t : List Alert) :
    LogPreserves P l (l ++ t) := by
  refine ⟨by simp, ?_⟩
  intro i h h' _
  simp only [List.get_eq_getElem]
  exact List.getElem_append_left h

theorem logPreserves_map (P : Alert → Prop) (f : Alert → Alert) (l : List Alert)
    (hf : ∀ a, P a → f a = a) : LogPreserves P l (l.map f) := by
  refine ⟨by simp, ?_⟩
  intro i h h' hP
  simp only [List.get_eq_getElem, List.getElem_map]
  exact hf _ hP

/-! ### Counting and step lemmas -/

theorem countActive_append_one (c m : String) (log : List Alert) (a : Alert) :
    countActive c m (log ++ [a]) =
      countActive c m log + (if matches_active c m a then 1 else 0) := by
  unfold countActive
  simp only [List.filter_append, List.length_append, List.filter_cons, List.filter_nil]
  split_ifs <;> simp

theorem countActive_append_nomatch (c m : String) (log tail : List Alert)
    (h : ∀ a ∈ tail, matches_active c m a = false) :
    countActive c m (log ++ tail) = countActive c m log := by
  unfold countActive
  rw [List.filter_append]
  have htail : tail.filter (matches_active c m) = [] := by
    induction tail with
    | nil => rfl
    | cons a l ih =>
      rw [List.filter_cons, if_neg (by simp [h a (List.mem_cons_self a l)])]
      exact ih (fun x hx => h x (List.mem_cons_of_mem a hx))
  rw [htail, List.append_nil]

theorem matches_of_matches_resolveOne (c m c' m' : String) (now : ℕ) (a : Alert)
    (h : matches_active c m (resolveOne c' m' now a) = true) :
    matches_active c m a = true := by
  unfold resolveOne at h
  split_ifs at h with hr
  · exfalso
    revert h
    unfold matches_active
    simp
  · exact h

theorem countActive_map_resolve_le (c m c' m' : String) (now : ℕ) (log : List Alert) :
    countActive c m (log.map (resolveOne c' m' now)) ≤ countActive c m log := by
  unfold countActive
  induction log with
  | nil => simp
  | cons a l ih =>
    simp only [List.map_cons, List.filter_cons]
    cases hma : matches_active c m (resolveOne c' m' now a) with
    | true =>
      have ha := matches_of_matches_resolveOne c m c' m' now a hma
      simp only [ha, hma, if_true, List.length_cons]
      exact Nat.succ_le_succ ih
    | false =>
      cases ha : matches_active c m a with
      | true =>
        simp only [ha, hma, Bool.false_eq_true, if_false, if_true, List.length_cons]
        exact le_trans ih (Nat.le_succ _)
      | false =>
        simp only [ha, hma, Bool.false_eq_true, if_false]
        exact ih

/-- The central per-pair invariant: at most one unresolved alert for each
monitored `(category, display-name)` pair. -/
def pairInvariant (log : List Alert) : Prop :=
  ∀ p ∈ monitoredPairs, countActive p.1 p.2 log ≤ 1

theorem check_preserves_inv (m c : String) (hmc : ((c), (m)) ∈ monitoredPairs)
    (v t : ℚ) (now : ℕ) (log : List Alert) (hinv : pairInvariant log) :
    pairInvariant (check_threshold_alert m v t c now log) := by
  intro p hp
  simp only [check_threshold_alert]
  split_ifs with hv hempty
  · rw [countActive_append_one]
    by_cases hpe : p = ((c), (m))
    · have h0 : countActive p.1 p.2 log = 0 := by
        subst hpe
        have : log.filter (matches_active c m) = [] := List.isEmpty_iff.mp hempty
        unfold countActive
        rw [this]
        rfl
      rw [h0]
      split_ifs <;> omega
    · have hnm : matches_active p.1 p.2 (openedAlert m v t c now) = false := by
        by_cases hc : p.1 = c
        · have hm2 : p.2 ≠ m := by
            intro he
            apply hpe
            cases p
            simp_all
          unfold matches_active openedAlert
          simp only
          rw [monitored_not_in_thresholdMsg p ((c), (m)) hp hmc hm2 v t]
          simp
        · unfold matches_active openedAlert
          simp only
          have : ((c : String) == p.1) = false := by
            cases hb : ((c : String) == p.1)
            · rfl
            · exact absurd (beq_iff_eq.mp hb).symm hc
          rw [this]
          simp
      rw [hnm]
      simp only [Bool.false_eq_true, if_false]
      have := hinv p hp
      omega
  · exact hinv p hp
  · exact le_trans (countActive_map_resolve_le p.1 p.2 c m now log) (hinv p hp)

theorem check_preserves_auto (m c : String) (hmc : ((c), (m)) ∈ monitoredPairs)
    (v t : ℚ) (now : ℕ) (log : List Alert) :
    LogPreserves AutoAlert log (check_threshold_alert m v t c now log) := by
  simp only [check_threshold_alert]
  split_ifs with hv hempty
  · exact logPreserves_append AutoAlert log _
  · exact logPreserves_refl AutoAlert log
  · exact logPreserves_map AutoAlert _ log
      (fun a ha => resolveOne_id_of_not_matches c m now a (auto_not_matches ((c), (m)) hmc a ha))

theorem anomaly_fold_shape (now : ℕ) (ts : List (String × ℚ × String)) :
    ∀ dl : AnomalyDetector × List Alert,
    (∀ x ∈ ts, x.1 ∈ anomalyMetricNames ∧
      (x.2.2 = ("system") ∨ x.2.2 = ("application"))) →
    ∃ tail, (ts.foldl (anomalyStep now) dl).2 = dl.2 ++ tail ∧
      ∀ a ∈ tail, AnomalyShaped a ∧ a.resolved = false ∧
        (a.category = ("system") ∨ a.category = ("application")) := by
  induction ts with
  | nil =>
    intro dl _
    exact ⟨[], by simp, by simp⟩
  | cons x rest ih =>
    intro dl hx
    simp only [List.foldl_cons]
    obtain ⟨tail, heq, hsh⟩ :=
      ih (anomalyStep now dl x) (fun y hy => hx y (List.mem_cons_of_mem x hy))
    have hx1 := hx x (List.mem_cons_self x rest)
    have hstep : (anomalyStep now dl x).2 = dl.2 ∨
        ∃ A, (anomalyStep now dl x).2 = dl.2 ++ [A] ∧ AnomalyShaped A ∧
          A.resolved = false ∧ A.category = x.2.2 := by
      simp only [anomalyStep]
      split_ifs with h
      · right
        refine ⟨_, rfl, ?_, rfl, rfl⟩
        exact ⟨x.1, x.2.1, (is_anomaly (add_data_point dl.1 x.1 x.2.1) x.1 x.2.1).2,
          detect_trend (add_data_point dl.1 x.1 x.2.1) x.1 10, hx1.1,
          detect_trend_mem _ x.1 10, rfl⟩
      · left; rfl
    rcases hstep with h | ⟨A, hA, hsA, hrA, hcA⟩
    · rw [h] at heq
      exact ⟨tail, heq, hsh⟩
    · rw [hA] at heq
      refine ⟨A :: tail, by rw [heq]; simp, ?_⟩
      intro a ha
      rcases List.mem_cons.mp ha with h | h
      · subst h
        exact ⟨hsA, hrA, hcA ▸ hx1.2⟩
      · exact hsh a h

theorem detect_anomalies_appends (sm : SystemMetrics) (am : ApplicationMetrics)
    (now : ℕ) (st : MonitorState) :
    ∃ tail, (detect_anomalies sm am now st).alert_history =
        st.alert_history ++ tail ∧
      ∀ a ∈ tail, AnomalyShaped a ∧ a.resolved = false ∧
        (a.category = ("system") ∨ a.category = ("application")) := by
  unfold detect_anomalies
  exact anomaly_fold_shape now (metricsToCheck sm am)
    (st.anomaly_detector, st.alert_history)
    (by
      intro x hx
      fin_cases hx <;> simp [anomalyMetricNames])

theorem generate_predictive_shape (now : ℕ) (st : MonitorState) :
    (generate_predictive_alerts now st).alert_history = st.alert_history ∨
    ∃ A, (generate_predictive_alerts now st).alert_history =
        st.alert_history ++ [A] ∧ A.category = ("predictive") ∧
        A.resolved = false := by
  simp only [generate_predictive_alerts]
  split_ifs with h1 h2 h3
  · left; rfl
  · right; exact ⟨_, rfl, rfl, rfl⟩
  · left; rfl
  · left; rfl

theorem detect_preserves_inv (sm : SystemMetrics) (am : ApplicationMetrics)
    (now : ℕ) (st : MonitorState) (h : pairInvariant st.alert_history) :
    pairInvariant (detect_anomalies sm am now st).alert_history := by
  obtain ⟨tail, heq, hsh⟩ := detect_anomalies_appends sm am now st
  intro p hp
  rw [heq, countActive_append_nomatch p.1 p.2 _ tail
    (fun a ha => auto_not_matches p hp a (Or.inl (hsh a ha).1))]
  exact h p hp

theorem predictive_preserves_inv (now : ℕ) (st : MonitorState)
    (h : pairInvariant st.alert_history) :
    pairInvariant (generate_predictive_alerts now st).alert_history := by
  rcases generate_predictive_shape now st with heq | ⟨A, heq, hcat, _⟩
  · rw [heq]; exact h
  · intro p hp
    rw [heq, countActive_append_nomatch p.1 p.2 _ [A]
      (fun a ha => by
        rw [List.mem_singleton.mp ha]
        exact auto_not_matches p hp A (Or.inr hcat))]
    exact h p hp

theorem ite_state_inv (c : Prop) [Decidable c] (f : MonitorState → MonitorState)
    (st : MonitorState)
    (hf : pairInvariant st.alert_history → pairInvariant (f st).alert_history)
    (h : pairInvariant st.alert_history) :
    pairInvariant ((if c then f st else st).alert_history) := by
  split_ifs with hc
  · exact hf h
  · exact h

theorem post_checks_inv (cfg : Config) (sm : SystemMetrics)
    (am : ApplicationMetrics) (now : ℕ) (st : MonitorState) (log : List Alert)
    (h : pairInvariant log) :
    pairInvariant ((if cfg.enable_predictive_alerts = true then
        generate_predictive_alerts now
          (if cfg.anomaly_detection = true then
            detect_anomalies sm am now { st with alert_history := log }
          else { st with alert_history := log })
      else (if cfg.anomaly_detection = true then
        detect_anomalies sm am now { st with alert_history := log }
      else { st with alert_history := log })).alert_history) := by
  have hmid : pairInvariant ((if cfg.anomaly_detection = true then
      detect_anomalies sm am now { st with alert_history := log }
    else { st with alert_history := log }).alert_history) := by
    split_ifs with hc
    · exact detect_preserves_inv sm am now _ h
    · exact h
  split_ifs at hmid ⊢ with hc1 hc2 hc3
  · exact predictive_preserves_inv now _ hmid
  · exact predictive_preserves_inv now _ hmid
  · exact hmid
  · exact hmid

theorem analyze_preserves_inv (cfg : Config) (sm : SystemMetrics)
    (am : ApplicationMetrics) (now : ℕ) (st : MonitorState)
    (h : pairInvariant st.alert_history) :
    pairInvariant (analyze_metrics cfg sm am now st).alert_history := by
  simp only [analyze_metrics]
  exact post_checks_inv cfg sm am now st _
    (check_preserves_inv ("Error Rate") ("application") (by decide) _ _ _ _
      (check_preserves_inv ("Response Time") ("application") (by decide) _ _ _ _
        (check_preserves_inv ("Disk Usage") ("system") (by decide) _ _ _ _
          (check_preserves_inv ("Memory Usage") ("system") (by decide) _ _ _ _
            (check_preserves_inv ("CPU Usage") ("system") (by decide) _ _ _ _ h)))))

theorem tick_preserves_inv (cfg : Config) (sm : SystemMetrics)
    (am : ApplicationMetrics) (now : ℕ) (st : MonitorState)
    (h : pairInvariant st.alert_history) :
    pairInvariant (monitor_tick cfg sm am now st).alert_history := by
  unfold monitor_tick
  exact analyze_preserves_inv cfg sm am now
    { st with
      system_metrics_history := trimTo cfg.historical_data_points
        (st.system_metrics_history ++ [sm]),
      app_metrics_history := trimTo cfg.historical_data_points
        (st.app_metrics_history ++ [am]) } h

theorem run_preserves_inv (cfg : Config) (inputs : List TickInput) :
    ∀ st : MonitorState, pairInvariant st.alert_history →
      pairInvariant (monitor_run cfg inputs st).alert_history := by
  induction inputs with
  | nil => intro st h; exact h
  | cons i rest ih =>
    intro st h
    simp only [monitor_run, List.foldl_cons]
    exact ih _ (tick_preserves_inv cfg i.sm i.am i.now st h)

theorem detect_preserves_auto (sm : SystemMetrics) (am : ApplicationMetrics)
    (now : ℕ) (st : MonitorState) :
    LogPreserves AutoAlert st.alert_history
      (detect_anomalies sm am now st).alert_history := by
  obtain ⟨tail, heq, _⟩ := detect_anomalies_appends sm am now st
  rw [heq]
  exact logPreserves_append AutoAlert _ tail

theorem predictive_preserves_auto (now : ℕ) (st : MonitorState) :
    LogPreserves AutoAlert st.alert_history
      (generate_predictive_alerts now st).alert_history := by
  rcases generate_predictive_shape now st with heq | ⟨A, heq, _, _⟩
  · rw [heq]; exact logPreserves_refl AutoAlert _
  · rw [heq]; exact logPreserves_append AutoAlert _ [A]

theorem check_chain_auto (cfg : Config) (sm : SystemMetrics)
    (am : ApplicationMetrics) (now : ℕ) (log : List Alert) :
    LogPreserves AutoAlert log
      (check_threshold_alert ("Error Rate") am.error_rate 20 ("application") now
        (check_threshold_alert ("Response Time") am.response_time_ms
          cfg.response_time_threshold_ms ("application") now
          (check_threshold_alert ("Disk Usage") sm.disk_usage_percent
            cfg.disk_threshold ("system") now
            (check_threshold_alert ("Memory Usage") sm.memory_percent
              cfg.memory_threshold ("system") now
              (check_threshold_alert ("CPU Usage") sm.cpu_percent
                cfg.cpu_threshold ("system") now log))))) :=
  logPreserves_trans (logPreserves_trans (logPreserves_trans (logPreserves_trans
    (check_preserves_auto ("CPU Usage") ("system") (by decide)
      sm.cpu_percent cfg.cpu_threshold now log)
    (check_preserves_auto ("Memory Usage") ("system") (by decide)
      sm.memory_percent cfg.memory_threshold now _))
    (check_preserves_auto ("Disk Usage") ("system") (by decide)
      sm.disk_usage_percent cfg.disk_threshold now _))
    (check_preserves_auto ("Response Time") ("application") (by decide)
      am.response_time_ms cfg.response_time_threshold_ms now _))
    (check_preserves_auto ("Error Rate") ("application") (by decide)
      am.error_rate 20 now _)

theorem post_checks_auto (cfg : Config) (sm : SystemMetrics)
    (am : ApplicationMetrics) (now : ℕ) (st : MonitorState) (log : List Alert) :
    LogPreserves AutoAlert log
      ((if cfg.enable_predictive_alerts = true then
          generate_predictive_alerts now
            (if cfg.anomaly_detection = true then
              detect_anomalies sm am now { st with alert_history := log }
            else { st with alert_history := log })
        else (if cfg.anomaly_detection = true then
          detect_anomalies sm am now { st with alert_history := log }
        else { st with alert_history := log })).alert_history) := by
  have hmid : LogPreserves AutoAlert log ((if cfg.anomaly_detection = true then
      detect_anomalies sm am now { st with alert_history := log }
    else { st with alert_history := log }).alert_history) := by
    split_ifs with hc
    · exact detect_preserves_auto sm am now { st with alert_history := log }
    · exact logPreserves_refl AutoAlert log
  split_ifs at hmid ⊢ with hc1 hc2 hc3
  · exact logPreserves_trans hmid (predictive_preserves_auto now _)
  · exact logPreserves_trans hmid (predictive_preserves_auto now _)
  · exact hmid
  · exact hmid

theorem analyze_preserves_auto (cfg : Config) (sm : SystemMetrics)
    (am : ApplicationMetrics) (now : ℕ) (st : MonitorState) :
    LogPreserves AutoAlert st.alert_history
      (analyze_metrics cfg sm am now st).alert_history := by
  simp only [analyze_metrics]
  exact logPreserves_trans (check_chain_auto cfg sm am now st.alert_history)
    (post_checks_auto cfg sm am now st _)

theorem tick_preserves_auto (cfg : Config) (sm : SystemMetrics)
    (am : ApplicationMetrics) (now : ℕ) (st : MonitorState) :
    LogPreserves AutoAlert st.alert_history
      (monitor_tick cfg sm am now st).alert_history := by
  unfold monitor_tick
  exact analyze_preserves_auto cfg sm am now
    { st with
      system_metrics_history := trimTo cfg.historical_data_points
        (st.system_metrics_history ++ [sm]),
      app_metrics_history := trimTo cfg.historical_data_points
        (st.app_metrics_history ++ [am]) }

theorem run_preserves_auto (cfg : Config) (inputs : List TickInput) :
    ∀ st : MonitorState, LogPreserves AutoAlert st.alert_history
      (monitor_run cfg inputs st).alert_history := by
  induction inputs with
  | nil => intro st; exact logPreserves_refl AutoAlert _
  | cons i rest ih =>
    intro st
    simp only [monitor_run, List.foldl_cons]
    exact logPreserves_trans (tick_preserves_auto cfg i.sm i.am i.now st)
      (ih (monitor_tick cfg i.sm i.am i.now st))

/-- The shipped default configuration: thresholds 80/85/90/1000, anomaly
detection and predictive alerts enabled, history bound 100. -/
def cfgDefault : Config := ⟨80, 85, 90, 1000, true, true, 100⟩

/-- One collected sample pair: CPU at `c` percent, everything else zero. -/
def breachTick (t : ℕ) (c : ℚ) : TickInput := ⟨t, ⟨t, c, 0, 0⟩, ⟨t, 0, 0⟩⟩

/-- Fourteen quiet ticks followed by two CPU spikes: both spikes are
statistical anomalies (z ≈ 3.6 then ≈ 2.56, above the 2.5 threshold). -/
def anomalyBurst : List TickInput :=
  ((List.range 14).map (fun i => breachTick i 0)) ++
    [breachTick 14 100, breachTick 15 100]

set_option maxRecDepth 1000000 in
/-- Claim C1 counterexample: after a reachable run under the default
configuration, *two* unresolved alerts exist for the pair
`("system", "cpu_percent")` — the anomaly path appends without any dedup
scan, so the central at-most-one invariant fails for anomaly identities. -/
theorem C1_counterexample :
    countActive ("system") ("cpu_percent")
      (monitor_run cfgDefault anomalyBurst initState).alert_history = 2 := by
  with_unfolding_all rfl

/-- Claim C1 (amended): the dedup invariant holds for the five threshold
(category, display-name) pairs: starting from any log with at most one
unresolved alert per monitored pair, any interleaving of evaluation cycles
(threshold, anomaly and predictive paths included) preserves it.  For
anomaly metric identities such as `("system", "cpu_percent")` the anomaly
path deduplicates nothing and the invariant fails (see the
counterexample). -/
theorem C1_monitored_pair_dedup (cfg : Config) (inputs : List TickInput)
    (st : MonitorState)
    (hinv : ∀ p ∈ monitoredPairs, countActive p.1 p.2 st.alert_history ≤ 1) :
    ∀ p ∈ monitoredPairs,
      countActive p.1 p.2 (monitor_run cfg inputs st).alert_history ≤ 1 :=
  run_preserves_inv cfg inputs st hinv

/-- Claim C1 witness: the invariant for `("system", "CPU Usage")` after one
breach tick from the fresh state. -/
theorem C1_witness :
    countActive ("system") ("CPU Usage")
      (monitor_run cfgDefault [breachTick 0 100] initState).alert_history ≤ 1 :=
  C1_monitored_pair_dedup cfgDefault [breachTick 0 100] initState (by decide)
    ((("system"), ("CPU Usage"))) (by decide)

set_option maxRecDepth 1000000 in
/-- Claim C6 counterexample: after 15 ticks under the default configuration
the log holds a threshold alert and an anomaly-path alert (its message is the
anomaly message for `cpu_percent`), and the anomaly-path alert's category is
`"system"`, not `"anomaly"` as the claim states. -/
theorem C6_counterexample :
    ((monitor_run cfgDefault (anomalyBurst.take 15) initState).alert_history.map
      (fun a => (a.category,
        containsStr a.message ("Anomaly detected in cpu_percent"), a.resolved))) =
    [((("system") : String), false, false), ((("system") : String), true, false)] := by
  with_unfolding_all rfl

/-- Claim C6 (amended): every alert created by the anomaly path carries the
*metric's own* category (`"system"` or `"application"`, not `"anomaly"`) and
an anomaly-shaped message, every predictive-path alert carries category
`"predictive"`; both are created unresolved, and no such alert is ever
marked resolved by any later sequence of evaluation cycles (the threshold
resolve scan can never match them). -/
theorem C6_auto_alert_lifecycle (cfg : Config) (inputs : List TickInput)
    (st : MonitorState) :
    (∀ sm am now, ∃ tail,
      (detect_anomalies sm am now st).alert_history = st.alert_history ++ tail ∧
      ∀ a ∈ tail, AnomalyShaped a ∧ a.resolved = false ∧
        (a.category = ("system") ∨ a.category = ("application"))) ∧
    (∀ now, (generate_predictive_alerts now st).alert_history = st.alert_history ∨
      ∃ A, (generate_predictive_alerts now st).alert_history =
        st.alert_history ++ [A] ∧ A.category = ("predictive") ∧
        A.resolved = false) ∧
    LogPreserves AutoAlert st.alert_history
      (monitor_run cfg inputs st).alert_history :=
  ⟨fun sm am now => detect_anomalies_appends sm am now st,
   fun now => generate_predictive_shape now st,
   run_preserves_auto cfg inputs st⟩

/-- A predictive-category alert planted in the log. -/
def predSeedAlert : Alert :=
  { timestamp := 0, severity := ("INFO"), category := ("predictive"),
    message := predictiveMsg 70 ("increasing"), value := 70, threshold := 60,
    duration_minutes := 0, resolved := false, resolution_time := none }

def predSeedState : MonitorState := ⟨AnomalyDetector.init, [predSeedAlert], [], []⟩

/-- Claim C6 witness: a seeded predictive alert survives a full evaluation
cycle unmodified (in particular it stays unresolved). -/
theorem C6_witness :
    (monitor_run cfgDefault [breachTick 0 100] predSeedState).alert_history.head? =
      some predSeedAlert := by
  have hpre :=
    (C6_auto_alert_lifecycle cfgDefault [breachTick 0 100] predSeedState).2.2
  have h0 : 0 < predSeedState.alert_history.length := by norm_num [predSeedState]
  have h0' : 0 < (monitor_run cfgDefault [breachTick 0 100]
      predSeedState).alert_history.length := lt_of_lt_of_le h0 hpre.1
  have hget := hpre.2 0 h0 h0' (Or.inr rfl)
  rw [List.head?_eq_getElem?, List.getElem?_eq_getElem h0']
  simp only [List.get_eq_getElem] at hget
  rw [hget]
  rfl
